import Mathlib

/-!
Shallow embedding of `docx/blkcntnr.py` (class `BlockItemContainer`) from the
python-docx fork, together with the small interfaces it uses from the rest of
the package.

Modelling choices:

* A paragraph (`w:p`) is modelled by the data the container layer reads and
  writes: its optional numbering identifier (`w:numPr/w:numId`), its list of
  text runs, and its optional paragraph style.
* A table (`w:tbl`) is modelled by its row count, column count and the list
  of grid-column widths.
* A container element's children are a `List BlockItem` in document order;
  `p_lst` and `tbl_lst` are the paragraph / table sublists in order.
* A document is a collection of container regions (body, cells, headers, ...)
  over one shared XML tree; `Doc.containers` lists the block-item sequences of
  those regions.  A concrete container object is a pair of the document and
  the index of its region, mirroring a `BlockItemContainer` wrapping one
  subtree of the shared document.
* `random.randint(0, 999999)` is modelled by consuming successive values from
  a list `draws` of pre-sampled random outputs, so the unbounded retry loop of
  `generate_numId` becomes a function over the finite draw list that returns
  `none` when every draw was rejected (the loop would still be running).
* Python statements mutating shared state are embedded by explicit state
  passing: a mutator returns the new container contents together with the
  value the Python method returns.
-/

namespace BlkCntnr

/-- Data of a `w:p` paragraph element as seen by the container layer:
numbering identifier, text runs, and paragraph style. -/
structure Para where
  numId : Option Nat
  runs : List String
  style : Option String
  deriving DecidableEq

/-- Data of a `w:tbl` table element: row count, column count, and the grid
column widths. -/
structure Table where
  rows : Nat
  cols : Nat
  colWidths : List Nat
  deriving DecidableEq

/-- A block-level child of a container element: paragraph or table. -/
inductive BlockItem where
  | p (para : Para)
  | tbl (t : Table)
  deriving DecidableEq

/-- The shared document tree, as the list of block-item sequences of its
container regions (body, cells, headers, ...). -/
structure Doc where
  containers : List (List BlockItem)
  deriving DecidableEq

/-- A freshly created empty paragraph element (`add_p`): no numbering, no
runs, no explicit style. -/
def Para.new : Para := { numId := none, runs := [], style := none }

/-- `p_lst`: the paragraphs among a container's children, in document order. -/
def paragraphsOf (c : List BlockItem) : List Para :=
  c.filterMap fun b => match b with
    | .p para => some para
    | .tbl _ => none

/-- `tbl_lst`: the tables among a container's children, in document order. -/
def tablesOf (c : List BlockItem) : List Table :=
  c.filterMap fun b => match b with
    | .tbl t => some t
    | .p _ => none

/-- Whether a block item is a paragraph carrying numbering identifier `n`
(an XPath match for `w:numId[@w:val=n]` inside that item). -/
def blockHasNumId (b : BlockItem) (n : Nat) : Bool :=
  match b with
  | .p para => decide (para.numId = some n)
  | .tbl _ => false

/-- Number of `w:numId[@w:val=n]` matches inside one container region. -/
def containerNumIdCount (c : List BlockItem) (n : Nat) : Nat :=
  c.countP fun b => blockHasNumId b n

/-- Number of `w:numId[@w:val=n]` matches in the whole document tree. -/
def docNumIdCount (d : Doc) (n : Nat) : Nat :=
  (d.containers.map fun c => containerNumIdCount c n).sum

/-- `self._element.xpath("//w:numId[@w:val=n]")` evaluated from the container
element with index `cIdx`: an XPath location path beginning with `//` is
absolute, so lxml evaluates it from the root of the tree containing the
context node, and the match count ranges over the entire document, whatever
container the call started from. -/
def xpathNumIdCount (d : Doc) (_cIdx : Nat) (n : Nat) : Nat :=
  docNumIdCount d n

/-- The retry loop of `generate_numId`, with the successive outputs of
`random.randint(0, 999999)` supplied in `draws`, threading the (read-only)
document state: returns the Python return value and the document state after
the call.  `none` means every supplied draw was rejected and the loop is
still spinning. -/
def generate_numId_st (d : Doc) (cIdx : Nat) : List Nat → Option Nat × Doc
  | [] => (none, d)
  | draw :: rest =>
      if xpathNumIdCount d cIdx draw = 0 then (some draw, d)
      else generate_numId_st d cIdx rest

/-- The value returned by `generate_numId`. -/
def generate_numId (d : Doc) (cIdx : Nat) (draws : List Nat) : Option Nat :=
  (generate_numId_st d cIdx draws).1

/-- `Paragraph.add_run(text)` as the container layer uses it: append one run
carrying `text` to the paragraph.  (The `Paragraph` proxy lives outside the
container module; only this append behaviour is relied on.) -/
def Para.add_run (p : Para) (text : String) : Para :=
  { p with runs := p.runs ++ [text] }

/-- The `paragraph.style = style` assignment: attach the style reference. -/
def Para.set_style (p : Para) (s : String) : Para :=
  { p with style := some s }

/-- `_add_paragraph`: `self._element.add_p()` appends a new empty `w:p` as the
last child and the method returns a proxy for it. -/
def add_p (c : List BlockItem) : List BlockItem × Para :=
  (c ++ [BlockItem.p Para.new], Para.new)

/-- `add_paragraph(text, style)`: append an empty paragraph, then, on that same
element, add a run when `text` is non-empty (Python truthiness of `str`) and
attach `style` when it is not `None`.  The Python code mutates the paragraph
element after inserting it; since the container aliases the element, the
resulting container holds the fully initialised paragraph, which is embedded
here by appending the final paragraph value. -/
def add_paragraph (c : List BlockItem) (text : String) (style : Option String) :
    List BlockItem × Para :=
  let p0 := Para.new
  let p1 := if text = "" then p0 else p0.add_run text
  let p2 := match style with
    | none => p1
    | some s => p1.set_style s
  (c ++ [BlockItem.p p2], p2)

/-- Modelled from the spec: `CT_Tbl.new_tbl` (in `docx/oxml/table.py`, not
among the provided sources) builds a table element with `rows` rows and `cols`
columns, `width` divided into `cols` equal integer column widths; the
integer-division remainder is absorbed by the last column (the remainder
policy the spec gives as its example), and `cols = 0` yields a degenerate
table with no columns rather than failing. -/
def new_tbl (rows cols width : Nat) : Table :=
  { rows := rows
    cols := cols
    colWidths :=
      if cols = 0 then []
      else List.replicate (cols - 1) (width / cols) ++ [width / cols + width % cols] }

/-- `add_table(rows, cols, width)`: build the new `w:tbl` and insert it with
`_insert_tbl`, which per the spec appends it as the last block item of the
container; the method returns the `Table` proxy. -/
def add_table (c : List BlockItem) (rows cols width : Nat) :
    List BlockItem × Table :=
  let t := new_tbl rows cols width
  (c ++ [BlockItem.tbl t], t)

/-- Modelled from the spec: the `ListParagraph` entity (in `docx/list.py`, not
among the provided sources) is a non-owning view over its parent container,
tagged with a numbering identifier, an optional style, and an indentation
level; constructing it attaches nothing to the document. -/
structure ListParagraph where
  numId : Nat
  style : Option String
  level : Nat
  deriving DecidableEq

/-- Modelled from the spec: a `ListParagraph` queried for its members filters
the parent container's current paragraph sequence by matching numbering
identifier. -/
def ListParagraph.items (lp : ListParagraph) (c : List BlockItem) : List Para :=
  (paragraphsOf c).filter fun q => decide (q.numId = some lp.numId)

/-- The `lists` property: collect the non-absent `numId` values of the
container's paragraphs, deduplicate them (Python `set(nums)`; iteration order
of the set is unspecified and `List.dedup` stands in for it), and build one
`ListParagraph` view per distinct value with default style and level. -/
def lists (c : List BlockItem) : List ListParagraph :=
  let nums := (paragraphsOf c).filterMap Para.numId
  nums.dedup.map fun n => { numId := n, style := none, level := 0 }

/-- `add_list(style, level)`: run `generate_numId` (consuming `draws`) and
construct a `ListParagraph` carrying the fresh id, `style` and `level`.
Returns the group together with the document state after the call; `none`
when the allocator loop never returned on the supplied draws. -/
def add_list (d : Doc) (cIdx : Nat) (draws : List Nat) (style : Option String)
    (level : Nat) : Option (ListParagraph × Doc) :=
  match generate_numId d cIdx draws with
  | none => none
  | some n => some ({ numId := n, style := style, level := level }, d)

/-- Append to container region `i` a new paragraph carrying numbering
identifier `n` (what a caller of `generate_numId` does when it attaches the
returned id to a new paragraph). -/
def appendNumPara : List (List BlockItem) → Nat → Nat → List (List BlockItem)
  | [], _, _ => []
  | c :: cs, 0, n => (c ++ [BlockItem.p { numId := some n, runs := [], style := none }]) :: cs
  | c :: cs, Nat.succ k, n => c :: appendNumPara cs k n

/-- Document after attaching a new paragraph numbered `n` to region `cIdx`. -/
def attachNumId (d : Doc) (cIdx n : Nat) : Doc :=
  { containers := appendNumPara d.containers cIdx n }

/-- A sequence of `generate_numId` calls on container `cIdx`, each immediately
followed by attaching the returned id to a new paragraph before the next
call; each call consumes its own list of random draws.  Returns the final
document and the list of ids the calls returned. -/
def allocAttachRun (cIdx : Nat) : Doc → List (List Nat) → Doc × List Nat
  | d, [] => (d, [])
  | d, draws :: rest =>
      match generate_numId d cIdx draws with
      | none => allocAttachRun cIdx d rest
      | some n =>
          let out := allocAttachRun cIdx (attachNumId d cIdx n) rest
          (out.1, n :: out.2)

/-- The `paragraphs` property with the container state threaded explicitly:
a read that returns the paragraph views and leaves the backing sequence as it
found it. -/
def paragraphs_st (c : List BlockItem) : List Para × List BlockItem :=
  (paragraphsOf c, c)

/-- The `tables` property with the container state threaded explicitly. -/
def tables_st (c : List BlockItem) : List Table × List BlockItem :=
  (tablesOf c, c)

/-- A document with a single empty container region. -/
def emptyDoc : Doc := { containers := [[]] }

/-- A document with one container already holding a paragraph numbered 5. -/
def docWith5 : Doc :=
  { containers := [[BlockItem.p { numId := some 5, runs := [], style := none }]] }

/-- A document with two container regions (two subtrees, as a body and a cell
of the same document), holding paragraphs numbered 1 and 2 respectively. -/
def docTwoRegions : Doc :=
  { containers :=
      [[BlockItem.p { numId := some 1, runs := [], style := none }],
       [BlockItem.p { numId := some 2, runs := [], style := none }]] }

/-- A document in which every value of the sampling range 0..999999 already
appears as a numbering identifier on some paragraph. -/
def fullDoc : Doc :=
  { containers := [(List.range 1000000).map fun i =>
      BlockItem.p { numId := some i, runs := [], style := none }] }

/-- Five concrete paragraphs with numbering identifiers 1, absent, 2, 1,
absent, distinguished by their run text. -/
def paraA : Para := { numId := some 1, runs := ["a"], style := none }

def paraB : Para := { numId := none, runs := ["b"], style := none }

def paraC : Para := { numId := some 2, runs := ["c"], style := none }

def paraD : Para := { numId := some 1, runs := ["d"], style := none }

def paraE : Para := { numId := none, runs := ["e"], style := none }

/-- Container whose paragraphs carry numbering identifiers
[1, absent, 2, 1, absent]. -/
def exampleContainer : List BlockItem :=
  [BlockItem.p paraA, BlockItem.p paraB, BlockItem.p paraC,
   BlockItem.p paraD, BlockItem.p paraE]

theorem generate_numId_nil (d : Doc) (cIdx : Nat) :
    generate_numId d cIdx [] = none := rfl

theorem generate_numId_cons (d : Doc) (cIdx draw : Nat) (rest : List Nat) :
    generate_numId d cIdx (draw :: rest) =
      if xpathNumIdCount d cIdx draw = 0 then some draw
      else generate_numId d cIdx rest := by
  show (generate_numId_st d cIdx (draw :: rest)).1 = _
  rw [generate_numId_st]
  split <;> rfl

/-- Any value returned by `generate_numId` has no `w:numId` match anywhere in
the document at the time of the call. -/
theorem generate_numId_sound (d : Doc) (cIdx : Nat) :
    ∀ draws n, generate_numId d cIdx draws = some n → docNumIdCount d n = 0 := by
  intro draws
  induction draws with
  | nil => intro n h; simp [generate_numId_nil] at h
  | cons draw rest ih =>
    intro n h
    rw [generate_numId_cons] at h
    by_cases hz : xpathNumIdCount d cIdx draw = 0
    · rw [if_pos hz] at h
      cases h
      exact hz
    · rw [if_neg hz] at h
      exact ih n h

theorem appendNumPara_length (cs : List (List BlockItem)) (i n : Nat) :
    (appendNumPara cs i n).length = cs.length := by
  induction cs generalizing i with
  | nil => rfl
  | cons c cs ih =>
    cases i with
    | zero => rfl
    | succ k => simp [appendNumPara, ih]

theorem containerNumIdCount_append_para (c : List BlockItem) (n m : Nat) :
    containerNumIdCount
      (c ++ [BlockItem.p { numId := some n, runs := [], style := none }]) m
    = containerNumIdCount c m + (if m = n then 1 else 0) := by
  unfold containerNumIdCount
  rw [List.countP_append]
  simp [blockHasNumId, List.countP_cons, eq_comm]

theorem sum_appendNumPara (cs : List (List BlockItem)) (i n m : Nat)
    (h : i < cs.length) :
    ((appendNumPara cs i n).map fun c => containerNumIdCount c m).sum
    = (cs.map fun c => containerNumIdCount c m).sum + (if m = n then 1 else 0) := by
  induction cs generalizing i with
  | nil => simp at h
  | cons c cs ih =>
    cases i with
    | zero =>
      simp only [appendNumPara, List.map_cons, List.sum_cons,
        containerNumIdCount_append_para]
      omega
    | succ k =>
      simp only [appendNumPara, List.map_cons, List.sum_cons]
      have := ih k (by simpa using Nat.lt_of_succ_lt_succ h)
      omega

theorem docNumIdCount_attach (d : Doc) (cIdx n m : Nat)
    (h : cIdx < d.containers.length) :
    docNumIdCount (attachNumId d cIdx n) m
    = docNumIdCount d m + (if m = n then 1 else 0) := by
  unfold docNumIdCount attachNumId
  exact sum_appendNumPara d.containers cIdx n m h

theorem attachNumId_containers_length (d : Doc) (cIdx n : Nat) :
    (attachNumId d cIdx n).containers.length = d.containers.length := by
  unfold attachNumId
  exact appendNumPara_length d.containers cIdx n

/-- The alloc-then-attach discipline keeps all returned ids pairwise distinct
and distinct from every id pre-existing in the document. -/
theorem allocAttachRun_spec (cIdx : Nat) :
    ∀ (dsl : List (List Nat)) (d : Doc), cIdx < d.containers.length →
      (allocAttachRun cIdx d dsl).2.Nodup
      ∧ ∀ n ∈ (allocAttachRun cIdx d dsl).2, docNumIdCount d n = 0 := by
  intro dsl
  induction dsl with
  | nil => intro d _; simp [allocAttachRun]
  | cons draws rest ih =>
    intro d hlen
    cases hg : generate_numId d cIdx draws with
    | none =>
      simpa [allocAttachRun, hg] using ih d hlen
    | some n =>
      have hlen2 : cIdx < (attachNumId d cIdx n).containers.length := by
        rw [attachNumId_containers_length]; exact hlen
      have hrec := ih (attachNumId d cIdx n) hlen2
      have hattach : ∀ m, docNumIdCount (attachNumId d cIdx n) m
          = docNumIdCount d m + (if m = n then 1 else 0) :=
        fun m => docNumIdCount_attach d cIdx n m hlen
      have hfresh : docNumIdCount d n = 0 :=
        generate_numId_sound d cIdx draws n hg
      have hnotmem : n ∉ (allocAttachRun cIdx (attachNumId d cIdx n) rest).2 := by
        intro hmem
        have h0 := hrec.2 n hmem
        have h1 := hattach n
        simp at h1
        omega
      constructor
      · simp only [allocAttachRun, hg]
        exact List.nodup_cons.mpr ⟨hnotmem, hrec.1⟩
      · intro m hm
        simp only [allocAttachRun, hg, List.mem_cons] at hm
        rcases hm with hm | hm
        · subst hm; exact hfresh
        · have h0 := hrec.2 m hm
          have h1 := hattach m
          by_cases hmn : m = n
          · subst hmn; exact hfresh
          · simp [hmn] at h1; omega

/-- The allocator loop reads the document but never writes it. -/
theorem generate_numId_st_snd (d : Doc) (cIdx : Nat) :
    ∀ draws, (generate_numId_st d cIdx draws).2 = d := by
  intro draws
  induction draws with
  | nil => rfl
  | cons a rest ih =>
    rw [generate_numId_st]
    split
    · rfl
    · exact ih

theorem new_tbl_colWidths_length (rows cols width : Nat) :
    (new_tbl rows cols width).colWidths.length = cols := by
  unfold new_tbl
  by_cases h : cols = 0
  · simp [h]
  · simp only [h, if_false, List.length_append, List.length_replicate,
      List.length_cons, List.length_nil]
    omega

theorem new_tbl_colWidths_sum (rows cols width : Nat) (h : 0 < cols) :
    (new_tbl rows cols width).colWidths.sum = width := by
  unfold new_tbl
  have hne : cols ≠ 0 := Nat.pos_iff_ne_zero.mp h
  simp only [hne, if_false, List.sum_append, List.sum_replicate, smul_eq_mul,
    List.sum_cons, List.sum_nil]
  have hd := Nat.div_add_mod width cols
  have hm : cols * (width / cols)
      = (cols - 1) * (width / cols) + width / cols := by
    cases cols with
    | zero => omega
    | succ k => simp [Nat.succ_mul, Nat.succ_sub_one]
  omega

/-- In a document whose single region numbers its paragraphs 0..N-1, every
identifier below N is already used. -/
theorem rangeDoc_all_ids_used (N n : Nat) (h : n < N) :
    0 < docNumIdCount
      { containers := [(List.range N).map fun i =>
          BlockItem.p { numId := some i, runs := [], style := none }] } n := by
  have hmem : BlockItem.p { numId := some n, runs := [], style := none }
      ∈ (List.range N).map (fun i =>
          BlockItem.p { numId := some i, runs := [], style := none }) :=
    List.mem_map.mpr ⟨n, List.mem_range.mpr h, rfl⟩
  have hpos : 0 < containerNumIdCount
      ((List.range N).map fun i =>
        BlockItem.p { numId := some i, runs := [], style := none }) n := by
    unfold containerNumIdCount
    exact List.countP_pos_iff.mpr ⟨_, hmem, by simp [blockHasNumId]⟩
  simpa [docNumIdCount] using hpos

/-- Every id of the sampling range is already used in `fullDoc`. -/
theorem fullDoc_all_ids_used : ∀ n, n ≤ 999999 → 0 < docNumIdCount fullDoc n :=
  fun n hn => rangeDoc_all_ids_used 1000000 n (by omega)

/-- Claim C1: `generate_numId` never returns an id that already appears as a
numbering identifier anywhere in the document at allocation time, and for any
sequence of calls each immediately followed by attaching the returned id to a
new paragraph before the next call, all returned ids are pairwise distinct
and distinct from every pre-existing id. -/
theorem generate_numId_unique_run (d : Doc) (cIdx : Nat)
    (h : cIdx < d.containers.length) :
    (∀ draws n, generate_numId d cIdx draws = some n → docNumIdCount d n = 0)
    ∧ ∀ dsl, (allocAttachRun cIdx d dsl).2.Nodup
        ∧ ∀ n ∈ (allocAttachRun cIdx d dsl).2, docNumIdCount d n = 0 :=
  ⟨generate_numId_sound d cIdx, fun dsl => allocAttachRun_spec cIdx dsl d h⟩

theorem generate_numId_unique_run_w :
    (allocAttachRun 0 docWith5 [[5, 3], [3, 4]]).2.Nodup :=
  ((generate_numId_unique_run docWith5 0 (by decide)).2 [[5, 3], [3, 4]]).1

/-- Claim C2: with paragraph numbering identifiers [1, absent, 2, 1, absent],
`lists` yields exactly one group per distinct non-absent identifier (two
groups, for ids 1 and 2, group order unspecified), the group for id 1
contains exactly the 1st and 4th paragraphs, and the unfiltered `paragraphs`
view still returns all 5 paragraphs in original document order. -/
theorem lists_grouping :
    (lists exampleContainer).length = 2
    ∧ ((lists exampleContainer).map ListParagraph.numId).Perm [1, 2]
    ∧ ((lists exampleContainer).filter fun g => decide (g.numId = 1)).map
        (fun g => ListParagraph.items g exampleContainer) = [[paraA, paraD]]
    ∧ paragraphsOf exampleContainer = [paraA, paraB, paraC, paraD, paraE] := by
  refine ⟨?_, ?_, ?_, ?_⟩ <;> decide

/-- Claim C3: `_add_paragraph` and `add_table` both append their new block
item at the tail of the container's sequence, leaving every existing element
in place: the new sequence is exactly the old one followed by the returned
item. -/
theorem append_at_tail (c : List BlockItem) (text : String)
    (style : Option String) (rows cols width : Nat) :
    (add_p c).1 = c ++ [BlockItem.p (add_p c).2]
    ∧ (add_paragraph c text style).1
        = c ++ [BlockItem.p (add_paragraph c text style).2]
    ∧ (add_table c rows cols width).1
        = c ++ [BlockItem.tbl (add_table c rows cols width).2] :=
  ⟨rfl, rfl, rfl⟩

/-- Claim C4: `add_paragraph` with non-empty text returns a paragraph with
exactly one run carrying that text and with the given style attached (stays
absent when no style is given); with no arguments the paragraph has zero runs
and no explicit style. -/
theorem add_paragraph_text_and_style (c : List BlockItem) (text : String)
    (style : Option String) (h : text ≠ "") :
    ((add_paragraph c text style).2.runs = [text]
     ∧ (add_paragraph c text style).2.style = style)
    ∧ ((add_paragraph c "" none).2.runs = []
       ∧ (add_paragraph c "" none).2.style = none) := by
  refine ⟨⟨?_, ?_⟩, rfl, rfl⟩
  · cases style with
    | none => simp [add_paragraph, Para.new, Para.add_run, h]
    | some s => simp [add_paragraph, Para.new, Para.add_run, Para.set_style, h]
  · cases style with
    | none => simp [add_paragraph, Para.new, Para.add_run, h]
    | some s => simp [add_paragraph, Para.new, Para.add_run, Para.set_style, h]

theorem add_paragraph_text_and_style_w :
    ((add_paragraph [] "hello" (some "styleX")).2.runs = ["hello"]
     ∧ (add_paragraph [] "hello" (some "styleX")).2.style = some "styleX")
    ∧ ((add_paragraph [] "" none).2.runs = []
       ∧ (add_paragraph [] "" none).2.style = none) :=
  add_paragraph_text_and_style [] "hello" (some "styleX") (by decide)

/-- Claim C5, counterexample: on an empty container, `add_list` succeeds and
returns a group, yet the container's `paragraphs` view does not grow by 1 —
constructing the group appends no paragraph. -/
theorem add_list_appends_no_para :
    (add_list emptyDoc 0 [0] none 2).isSome = true
    ∧ ¬ ((paragraphsOf (((add_list emptyDoc 0 [0] none 2).getD
            ({ numId := 0, style := none, level := 0 }, emptyDoc)).2.containers.getD 0 [])).length
          = (paragraphsOf (emptyDoc.containers.getD 0 [])).length + 1) := by
  refine ⟨?_, ?_⟩ <;> decide

/-- Claim C5, amended: `add_list` leaves the document — hence the container's
`paragraphs` view — unchanged (it appends no paragraph; one is only added
when the returned group is first populated), and the group it returns carries
a freshly allocated numbering identifier absent from the whole document,
together with the requested style and level. -/
theorem add_list_spec (d : Doc) (cIdx : Nat) (draws : List Nat)
    (style : Option String) (level : Nat) (g : ListParagraph) (d2 : Doc)
    (h : add_list d cIdx draws style level = some (g, d2)) :
    d2 = d ∧ docNumIdCount d g.numId = 0
    ∧ g.style = style ∧ g.level = level := by
  unfold add_list at h
  cases hg : generate_numId d cIdx draws with
  | none => rw [hg] at h; cases h
  | some n =>
    rw [hg] at h
    cases h
    exact ⟨rfl, generate_numId_sound d cIdx draws n hg, rfl, rfl⟩

theorem add_list_spec_w :
    emptyDoc = emptyDoc ∧ docNumIdCount emptyDoc 0 = 0
    ∧ (none : Option String) = none ∧ (2 : Nat) = 2 :=
  add_list_spec emptyDoc 0 [0] none 2
    { numId := 0, style := none, level := 2 } emptyDoc (by decide)

/-- Claim C6, counterexample: `add_table` with `cols = 0` and non-zero width
yields a table whose per-column widths sum to 0, not to the requested width,
so the summing part of the claim fails at `rows = 0, cols = 0, width = 5`. -/
theorem add_table_width_sum_cex :
    (add_table [] 0 0 5).2.colWidths.sum = 0
    ∧ ¬ ((add_table [] 0 0 5).2.colWidths.sum = 5) := by
  refine ⟨?_, ?_⟩ <;> decide

/-- Claim C6, amended: for all rows, cols and width, `add_table` succeeds and
returns a table with exactly `rows` rows and `cols` columns; when `cols ≥ 1`
the per-column widths are an even integer division of `width` whose remainder
is absorbed by the last column, so they sum to `width`; when `cols = 0` the
degenerate table has no columns (their widths sum to 0). -/
theorem add_table_geometry (c : List BlockItem) (rows cols width : Nat) :
    (add_table c rows cols width).2.rows = rows
    ∧ (add_table c rows cols width).2.cols = cols
    ∧ (add_table c rows cols width).2.colWidths.length = cols
    ∧ (0 < cols → (add_table c rows cols width).2.colWidths.sum = width)
    ∧ (cols = 0 → (add_table c rows cols width).2.colWidths = []) := by
  refine ⟨rfl, rfl, new_tbl_colWidths_length rows cols width,
    fun h => new_tbl_colWidths_sum rows cols width h, fun h => ?_⟩
  show (new_tbl rows cols width).colWidths = []
  simp [new_tbl, h]

theorem add_table_geometry_w :
    (add_table [] 3 4 10).2.rows = 3
    ∧ (add_table [] 3 4 10).2.colWidths.length = 4
    ∧ (add_table [] 3 4 10).2.colWidths.sum = 10 :=
  ⟨(add_table_geometry [] 3 4 10).1,
   (add_table_geometry [] 3 4 10).2.2.1,
   (add_table_geometry [] 3 4 10).2.2.2.1 (by decide)⟩

/-- Claim C7: in a document state where every integer of the sampling range
0..999999 already appears as a numbering identifier, `generate_numId` rejects
every draw the random source can produce: for every finite sequence of draws
from the range the loop has still not returned, i.e. it retries forever and
no error is ever raised. -/
theorem generate_numId_nonterminating (d : Doc) (cIdx : Nat)
    (hfull : ∀ n, n ≤ 999999 → 0 < docNumIdCount d n)
    (draws : List Nat) (hdraws : ∀ x ∈ draws, x ≤ 999999) :
    generate_numId d cIdx draws = none := by
  induction draws with
  | nil => rfl
  | cons a rest ih =>
    rw [generate_numId_cons]
    have ha := hfull a (hdraws a (List.mem_cons_self a rest))
    rw [if_neg (by unfold xpathNumIdCount; omega)]
    exact ih fun x hx => hdraws x (List.mem_cons_of_mem a hx)

theorem generate_numId_nonterminating_w :
    generate_numId fullDoc 0 [0, 123456, 999999] = none :=
  generate_numId_nonterminating fullDoc 0 fullDoc_all_ids_used
    [0, 123456, 999999] (by decide)

/-- Claim C8: `generate_numId` leaves the document state exactly as it found
it (the returned id is never reserved or marked), and consequently there is a
document state and a random draw sequence for which two sequential calls with
no intervening attachment return the same id. -/
theorem generate_numId_no_side_effect :
    (∀ (d : Doc) (cIdx : Nat) (draws : List Nat),
       (generate_numId_st d cIdx draws).2 = d)
    ∧ ∃ (d : Doc) (cIdx : Nat) (draws : List Nat) (n : Nat),
        generate_numId d cIdx draws = some n
        ∧ generate_numId (generate_numId_st d cIdx draws).2 cIdx draws = some n :=
  ⟨fun d cIdx draws => generate_numId_st_snd d cIdx draws,
   ⟨emptyDoc, 0, [7], 7, by decide, by decide⟩⟩

/-- Claim C9: the `paragraphs` and `tables` reads leave the backing sequence
unchanged, so calling either twice with no intervening mutation returns equal
sequences both times. -/
theorem reads_idempotent (c : List BlockItem) :
    (paragraphs_st c).1 = (paragraphs_st (paragraphs_st c).2).1
    ∧ (tables_st c).1 = (tables_st (tables_st c).2).1
    ∧ (paragraphs_st c).2 = c
    ∧ (tables_st c).2 = c :=
  ⟨rfl, rfl, rfl, rfl⟩

/-- Claim C10: the existence check inside `generate_numId` is document-global:
any two containers over subtrees of the same document perform the identical
check and get the identical result, and a returned id has no match anywhere
in the entire document, not merely in the caller's own container. -/
theorem xpath_check_document_global (d : Doc) (c1 c2 : Nat) :
    (∀ n, xpathNumIdCount d c1 n = xpathNumIdCount d c2 n)
    ∧ (∀ draws, generate_numId d c1 draws = generate_numId d c2 draws)
    ∧ (∀ draws n, generate_numId d c1 draws = some n → docNumIdCount d n = 0) := by
  refine ⟨fun n => rfl, fun draws => ?_, generate_numId_sound d c1⟩
  induction draws with
  | nil => rfl
  | cons a rest ih =>
    rw [generate_numId_cons, generate_numId_cons]
    unfold xpathNumIdCount
    by_cases hz : docNumIdCount d a = 0
    · rw [if_pos hz, if_pos hz]
    · rw [if_neg hz, if_neg hz]
      exact ih

theorem xpath_check_document_global_w :
    xpathNumIdCount docTwoRegions 0 5 = xpathNumIdCount docTwoRegions 1 5
    ∧ docNumIdCount docTwoRegions 5 = 0 :=
  ⟨(xpath_check_document_global docTwoRegions 0 1).1 5,
   (xpath_check_document_global docTwoRegions 0 1).2.2 [2, 5] 5 (by decide)⟩

end BlkCntnr
